import Mathlib

/-!
Verification development for the streamlit-handson teaching repository.

Each lesson page is modelled as pure Lean functions over explicit state:
the per-session key-value store becomes an association list keyed by
`String`, handlers become state-transforming functions returning the new
state together with the message the page displays, and the SHA-256 digest
(computed by `hashlib.sha256(...).hexdigest()` in the source) is treated
as an abstract function `String → String` that the handlers receive as a
parameter, since the handlers only ever compare its outputs for equality.
-/

/-- Key lookup in an association list with string keys, matching Python
dictionary lookup `d[k]` / `k in d` on the demos' session dictionaries. -/
def lookupKey {V : Type} : List (String × V) → String → Option V
  | [], _ => none
  | (k, v) :: rest, key => if k = key then some v else lookupKey rest key

/-- Python's single-character containment test `c in s`: membership of
the character among the string's characters. -/
def containsChar (s : String) (c : Char) : Bool :=
  s.toList.contains c

/-- A record of `st.session_state.users_db` in Chapter 8
(`src/pages/08_authentication.py`): fields `password` (a hex digest),
`role`, `email`, `created`. -/
structure UserRec8 where
  password : String
  role : String
  email : String
  created : String
deriving Repr, DecidableEq

/-- The authentication-related session state of Chapter 8:
`authenticated`, `current_user`, `users_db`. -/
structure AuthState8 where
  authenticated : Bool
  current_user : Option String
  users_db : List (String × UserRec8)
deriving Repr, DecidableEq

/-- The initial Chapter 8 session state: `authenticated = False`,
`current_user = None`, and the two seeded accounts `admin` and `user1`
whose stored passwords are the digests of `admin123` / `user123`. -/
def initAuthState8 (hash : String → String) : AuthState8 :=
  { authenticated := false
    current_user := none
    users_db :=
      [("admin", { password := hash "admin123", role := "admin",
                   email := "admin@example.com", created := "2024-01-01" }),
       ("user1", { password := hash "user123", role := "user",
                   email := "user1@example.com", created := "2024-01-15" })] }

/-- The Chapter 8 `login_form` submit handler
(`src/pages/08_authentication.py` lines 314-335): empty username or
password shows "Please fill in all fields"; otherwise the SHA-256 digest
of the password is compared with the stored hash for the username, setting
`authenticated`/`current_user` on a match. Returns the new state and the
displayed message. -/
def login8 (hash : String → String) (st : AuthState8)
    (username password : String) : AuthState8 × String :=
  if username = "" ∨ password = "" then
    (st, "❌ Please fill in all fields")
  else
    let hashed_input := hash password
    match lookupKey st.users_db username with
    | some r =>
        if hashed_input = r.password then
          ({ st with authenticated := true, current_user := some username },
           "✅ Login successful!")
        else
          (st, "❌ Invalid password")
    | none => (st, "❌ User not found")

/-- A record of `st.session_state.users_db` in Chapter 9
(`src/pages/09_access_control.py`): `password`, `role`, `email`,
`permissions`. -/
structure UserRec9 where
  password : String
  role : String
  email : String
  permissions : List String
deriving Repr, DecidableEq

/-- The RBAC session state of Chapter 9: `authenticated`, `current_user`,
`user_role`, `users_db`. -/
structure AuthState9 where
  authenticated : Bool
  current_user : Option String
  user_role : Option String
  users_db : List (String × UserRec9)
deriving Repr, DecidableEq

/-- The initial Chapter 9 session state with the four seeded role
accounts. -/
def initAuthState9 (hash : String → String) : AuthState9 :=
  { authenticated := false
    current_user := none
    user_role := none
    users_db :=
      [("admin", { password := hash "admin123", role := "admin",
                   email := "admin@company.com",
                   permissions := ["read", "write", "delete", "manage_users",
                                   "view_analytics"] }),
       ("manager", { password := hash "manager123", role := "manager",
                     email := "manager@company.com",
                     permissions := ["read", "write", "view_analytics"] }),
       ("user", { password := hash "user123", role := "user",
                  email := "user@company.com",
                  permissions := ["read", "write"] }),
       ("viewer", { password := hash "viewer123", role := "viewer",
                    email := "viewer@company.com",
                    permissions := ["read"] })] }

/-- The Chapter 9 `rbac_login` submit handler
(`src/pages/09_access_control.py` lines 317-331): no emptiness check; the
digest of the password is compared with the stored hash, and on a match
`authenticated`, `current_user` and `user_role` are set. -/
def login9 (hash : String → String) (st : AuthState9)
    (username password : String) : AuthState9 × String :=
  match lookupKey st.users_db username with
  | some r =>
      if hash password = r.password then
        ({ st with authenticated := true, current_user := some username,
                   user_role := some r.role },
         "✅ Login successful!")
      else
        (st, "❌ Invalid password")
  | none => (st, "❌ User not found")

/-- The module-level `ROLE_PERMISSIONS` dictionary of Chapter 9
(`src/pages/09_access_control.py` lines 51-56). -/
def ROLE_PERMISSIONS : List (String × List String) :=
  [("admin", ["read", "write", "delete", "manage_users", "view_analytics",
              "system_settings"]),
   ("manager", ["read", "write", "view_analytics", "manage_team"]),
   ("user", ["read", "write", "edit_profile"]),
   ("viewer", ["read"])]

/-- The module-level `PAGE_ACCESS` dictionary of Chapter 9
(`src/pages/09_access_control.py` lines 59-65). -/
def PAGE_ACCESS : List (String × List String) :=
  [("home", ["admin", "manager", "user", "viewer"]),
   ("dashboard", ["admin", "manager", "user"]),
   ("analytics", ["admin", "manager"]),
   ("users", ["admin"]),
   ("settings", ["admin"])]

/-- `ROLE_PERMISSIONS.get(role, [])` from the permission test
(`src/pages/09_access_control.py` line 515): the permission list of a
role, empty for an unknown role. -/
def userPermissions (role : String) : List String :=
  (lookupKey ROLE_PERMISSIONS role).getD []

/-- The interactive permission test `if test_perm in user_permissions`
(`src/pages/09_access_control.py` lines 546-552). -/
def permTestGranted (role perm : String) : Bool :=
  (userPermissions role).contains perm

/-- The page access test `if st.session_state.user_role in allowed_roles`
(`src/pages/09_access_control.py` lines 569-572), run for each
`(page, allowed_roles)` pair of `PAGE_ACCESS`. -/
def pageTestGranted (allowed_roles : List String) (role : String) : Bool :=
  allowed_roles.contains role

/-- A row of the Chapter 13 SQLite `users` table
(`src/pages/13_database_api.py` lines 390-398): columns
`id, name, email, role, created_at`, with `created_at` modelled as an
abstract timestamp. -/
structure UserRow where
  id : Nat
  name : String
  email : String
  role : String
  created_at : Nat
deriving Repr, DecidableEq

/-- The `users` table together with the engine's autoincrement counter
for the `INTEGER PRIMARY KEY AUTOINCREMENT` column. -/
structure UsersTable where
  rows : List UserRow
  nextId : Nat
deriving Repr, DecidableEq

/-- Messages the Chapter 13 create-user form can display:
`requiredErr` stands for "Name and email are required", `emailExists`
for "❌ Email already exists!" (the caught `sqlite3.IntegrityError`),
and `created` for the success message. -/
inductive CreateMsg
  | requiredErr
  | emailExists
  | created
deriving Repr, DecidableEq

/-- The Chapter 13 `create_user` form handler
(`src/pages/13_database_api.py` lines 429-443): empty name or email is
rejected up front; otherwise
`INSERT INTO users (name, email, role) VALUES (?, ?, ?)` succeeds exactly
when no existing row has the same email (the UNIQUE constraint), leaving
the table unchanged when the engine raises `IntegrityError`. -/
def create_user (t : UsersTable) (now : Nat) (name email role : String) :
    UsersTable × CreateMsg :=
  if name = "" ∨ email = "" then
    (t, CreateMsg.requiredErr)
  else if t.rows.any (fun r => r.email = email) then
    (t, CreateMsg.emailExists)
  else
    ({ rows := t.rows ++
         [{ id := t.nextId, name := name, email := email, role := role,
            created_at := now }],
       nextId := t.nextId + 1 },
     CreateMsg.created)

/-- The answers submitted to the Chapter 8 quiz
(`src/pages/08_authentication.py` lines 592-617): Q1, Q2, Q3, Q5 are radio
selections, Q4 is a checkbox. -/
structure Quiz8Answers where
  q1 : String
  q2 : String
  q3 : String
  q4 : Bool
  q5 : String
deriving Repr, DecidableEq

/-- The Chapter 8 "Check Answers" scoring
(`src/pages/08_authentication.py` lines 619-651): one point per response
equal to the hardcoded key. -/
def quiz8Score (a : Quiz8Answers) : Nat :=
  (if a.q1 = "To prevent storing plain text passwords" then 1 else 0) +
  (if a.q2 = "st.session_state" then 1 else 0) +
  (if a.q3 = "st.stop()" then 1 else 0) +
  (if a.q4 then 1 else 0) +
  (if a.q5 = "bcrypt" then 1 else 0)

/-- The closing message of the Chapter 8 quiz
(`src/pages/08_authentication.py` lines 659-665): perfect score, `>= 3`,
or review. -/
def quiz8Message (score : Nat) : String :=
  if score = 5 then "🎉 Excellent! You understand authentication!"
  else if score ≥ 3 then "👍 Good! Review security concepts."
  else "📖 Please review authentication concepts."

/-- The five per-question match indicators of the Chapter 8 quiz, written
out as the spec reads them: the score should be the number of `true`
entries of this list. -/
def quiz8Matches (a : Quiz8Answers) : List Bool :=
  [decide (a.q1 = "To prevent storing plain text passwords"),
   decide (a.q2 = "st.session_state"),
   decide (a.q3 = "st.stop()"),
   a.q4,
   decide (a.q5 = "bcrypt")]

/-- The validation errors of the Chapter 8 registration form
(`src/pages/08_authentication.py` lines 360-376), one constructor per
`errors.append(...)` message: "All fields are required",
"Username already exists", "Password must be at least 6 characters",
"Passwords do not match", "Invalid email format". -/
inductive RegError
  | allFieldsRequired
  | usernameExists
  | passwordTooShort
  | passwordsMismatch
  | invalidEmail
deriving Repr, DecidableEq

/-- The error list the Chapter 8 registration handler accumulates, in the
source's order. -/
def register8Errors (db : List (String × UserRec8))
    (username email password confirm : String) : List RegError :=
  (if username = "" ∨ password = "" ∨ email = "" then
     [RegError.allFieldsRequired] else []) ++
  (if (lookupKey db username).isSome then [RegError.usernameExists] else []) ++
  (if password.length < 6 then [RegError.passwordTooShort] else []) ++
  (if password ≠ confirm then [RegError.passwordsMismatch] else []) ++
  (if ¬ containsChar email '@' then [RegError.invalidEmail] else [])

/-- The Chapter 8 `register_form` submit handler
(`src/pages/08_authentication.py` lines 360-393): when every check passes,
`users_db[new_username]` is assigned a record whose password is the
SHA-256 digest of the submitted password; otherwise the database is left
alone and the collected errors are displayed. -/
def register8 (hash : String → String) (db : List (String × UserRec8))
    (created : String) (username email password confirm role : String) :
    List (String × UserRec8) × List RegError :=
  let errors := register8Errors db username email password confirm
  if errors = [] then
    ((username, { password := hash password, email := email, role := role,
                  created := created }) :: db, [])
  else
    (db, errors)

/-- The shared session store of the lessons: the framework's string-keyed
per-session map, holding values of a type `V`. -/
def Store (V : Type) : Type := List (String × V)

/-- A write `st.session_state[k] = v` to the shared store. -/
def Store.set {V : Type} (s : Store V) (k : String) (v : V) : Store V :=
  (k, v) :: s

/-- A read `st.session_state[k]` from the shared store. -/
def Store.get {V : Type} (s : Store V) (k : String) : Option V :=
  lookupKey s k

/-- An item the Chapter 4 shopping-cart callback appends:
`{'product': prod, 'price': price}`. -/
structure CartItem where
  product : String
  price : Nat
deriving Repr, DecidableEq

/-- The Chapter 4 `add_to_cart` callback
(`src/pages/04_session_state.py` lines 156-160):
`st.session_state.cart.append({'product': prod, 'price': price})`,
a read-modify-write of the `cart` key. -/
def add_to_cart (s : Store (List CartItem)) (prod : String) (price : Nat) :
    Store (List CartItem) :=
  s.set "cart" ((s.get "cart").getD [] ++ [{ product := prod, price := price }])

/-- The Chapter 13 manual-refresh button
(`src/pages/13_database_api.py` lines 727-729):
`st.session_state.refresh_count += 1`, a read-modify-write of the
`refresh_count` key. -/
def refreshCountIncr (s : Store Nat) : Store Nat :=
  s.set "refresh_count" ((s.get "refresh_count").getD 0 + 1)

/-- The three buttons of the Chapter 13 progress-tracking demo
(`src/pages/13_database_api.py` lines 751-764). -/
inductive ProgressOp
  | add10
  | sub10
  | reset
deriving Repr, DecidableEq

/-- One button press on the progress demo: "Add 10%" sets
`min(100, progress + 10)`, "Subtract 10%" sets `max(0, progress - 10)`,
"Reset" sets `0`. -/
def progressStep (p : Int) : ProgressOp → Int
  | ProgressOp.add10 => min 100 (p + 10)
  | ProgressOp.sub10 => max 0 (p - 10)
  | ProgressOp.reset => 0

/-- The progress value after a sequence of button presses, starting from
the initial `st.session_state.progress = 0`. -/
def runProgress (ops : List ProgressOp) : Int :=
  ops.foldl progressStep 0

/-- The validation error messages of the Chapter 10 multi-step form
wizard (`src/pages/10_forms_validation.py`), one constructor per
`errors.append(...)` site of steps 1-3. -/
inductive WizardError
  | firstNameRequired
  | lastNameRequired
  | emailInvalid
  | phoneRequired
  | streetRequired
  | cityRequired
  | stateRequired
  | zipRequired
  | usernameRequired
  | usernameTooShort
  | passwordRequired
  | passwordTooShort
  | passwordsMismatch
  | securityAnswerRequired
deriving Repr, DecidableEq

/-- Step 1 validation (`src/pages/10_forms_validation.py` lines 528-537):
first name, last name, a `@`-containing email, and phone are required. -/
def step1Errors (first_name last_name email phone : String) :
    List WizardError :=
  (if first_name = "" then [WizardError.firstNameRequired] else []) ++
  (if last_name = "" then [WizardError.lastNameRequired] else []) ++
  (if email = "" ∨ ¬ containsChar email '@' then [WizardError.emailInvalid]
   else []) ++
  (if phone = "" then [WizardError.phoneRequired] else [])

/-- Step 2 validation (`src/pages/10_forms_validation.py` lines 588-597):
street, city, state and ZIP are required. -/
def step2Errors (street city state zipcode : String) : List WizardError :=
  (if street = "" then [WizardError.streetRequired] else []) ++
  (if city = "" then [WizardError.cityRequired] else []) ++
  (if state = "" then [WizardError.stateRequired] else []) ++
  (if zipcode = "" then [WizardError.zipRequired] else [])

/-- Step 3 validation (`src/pages/10_forms_validation.py` lines 641-656):
username present and at least 3 characters, password present and at least
8 characters, matching confirmation, security answer present. -/
def step3Errors (username password confirm security_answer : String) :
    List WizardError :=
  (if username = "" then [WizardError.usernameRequired]
   else if username.length < 3 then [WizardError.usernameTooShort]
   else []) ++
  (if password = "" then [WizardError.passwordRequired]
   else if password.length < 8 then [WizardError.passwordTooShort]
   else []) ++
  (if password ≠ confirm then [WizardError.passwordsMismatch] else []) ++
  (if security_answer = "" then [WizardError.securityAnswerRequired] else [])

/-- A record appended to `st.session_state.submitted_forms` on final
submission (`src/pages/10_forms_validation.py` lines 713-717). -/
structure SubmittedForm where
  type : String
  data : List (String × String)
  timestamp : String
deriving Repr, DecidableEq

/-- The wizard's session state: `form_step`, `form_data` (a dictionary of
field values) and `submitted_forms`. -/
structure WizardState where
  form_step : Nat
  form_data : List (String × String)
  submitted_forms : List SubmittedForm
deriving Repr, DecidableEq

/-- `st.session_state.form_data.update({...})`: merge a list of key-value
pairs into the dictionary, later pairs shadowing earlier ones. -/
def updateData (d : List (String × String)) (kvs : List (String × String)) :
    List (String × String) :=
  kvs.foldl (fun acc kv => (kv.1, kv.2) :: acc) d

/-- The user interactions available on the wizard: the Next submissions of
steps 1-3 carrying that step's field values, the Back buttons of steps
2-4, and the final submission of step 4 (carrying the timestamp). -/
inductive WizardEvent
  | next1 (first_name last_name email phone birthdate : String)
  | next2 (street city state zipcode country : String)
  | next3 (username password confirm security_question security_answer : String)
  | back2
  | back3
  | back4
  | submit4 (now : String)
deriving Repr, DecidableEq

/-- The initial wizard state (`src/pages/10_forms_validation.py` lines
12-19): `form_step = 1`, empty `form_data`, empty `submitted_forms`. -/
def initWizard : WizardState :=
  { form_step := 1, form_data := [], submitted_forms := [] }

/-- One interaction on the Chapter 10 multi-step form wizard
(`src/pages/10_forms_validation.py` lines 491-726). Each step's form only
exists while `form_step` equals that step, so every event is guarded by
the step it belongs to; a Next submission advances one step and merges its
fields into `form_data` exactly when its validation produced no errors,
Back moves one step down, and the final submission appends one record to
`submitted_forms` and resets `form_step` to 1 and `form_data` to empty. -/
def wizardStep (st : WizardState) : WizardEvent → WizardState
  | WizardEvent.next1 fn ln em ph bd =>
    if st.form_step = 1 then
      if step1Errors fn ln em ph = [] then
        { st with form_step := 2,
                  form_data := updateData st.form_data
                    [("first_name", fn), ("last_name", ln), ("email", em),
                     ("phone", ph), ("birthdate", bd)] }
      else st
    else st
  | WizardEvent.next2 street city state zipcode country =>
    if st.form_step = 2 then
      if step2Errors street city state zipcode = [] then
        { st with form_step := 3,
                  form_data := updateData st.form_data
                    [("street", street), ("city", city), ("state", state),
                     ("zipcode", zipcode), ("country", country)] }
      else st
    else st
  | WizardEvent.next3 u p c sq sa =>
    if st.form_step = 3 then
      if step3Errors u p c sa = [] then
        { st with form_step := 4,
                  form_data := updateData st.form_data
                    [("username", u), ("password", "***hidden***"),
                     ("security_question", sq), ("security_answer", sa)] }
      else st
    else st
  | WizardEvent.back2 => if st.form_step = 2 then { st with form_step := 1 } else st
  | WizardEvent.back3 => if st.form_step = 3 then { st with form_step := 2 } else st
  | WizardEvent.back4 => if st.form_step = 4 then { st with form_step := 3 } else st
  | WizardEvent.submit4 now =>
    if st.form_step = 4 then
      { form_step := 1, form_data := [],
        submitted_forms := st.submitted_forms ++
          [{ type := "multi-step-application", data := st.form_data,
             timestamp := now }] }
    else st

/-- The wizard state after a sequence of interactions from the initial
state. -/
def runWizard (es : List WizardEvent) : WizardState :=
  es.foldl wizardStep initWizard

/-- The special-character class of the strength check's regex
`[!@#$%^&*(),.?":\x7b\x7d|<>]` (`src/pages/10_forms_validation.py` line
414); the double quote and the two braces are written by code point. -/
def pwSpecialChars : List Char :=
  ['!', '@', '#', '$', '%', '^', '&', '*', '(', ')', ',', '.', '?',
   Char.ofNat 34, ':', Char.ofNat 123, Char.ofNat 125, '|', '<', '>']

/-- The five strength criteria of the Chapter 10 password check
(`src/pages/10_forms_validation.py` lines 388-418), in source order:
length at least 8, an uppercase ASCII letter, a lowercase ASCII letter, a
digit, a special character. -/
def pwCriteria (p : String) : List Bool :=
  [decide (p.length ≥ 8),
   p.toList.any (fun c => c.isUpper),
   p.toList.any (fun c => c.isLower),
   p.toList.any (fun c => c.isDigit),
   p.toList.any (fun c => pwSpecialChars.contains c)]

/-- The strength score: one point per satisfied criterion, accumulated by
the handler's `strength += 1` lines. -/
def pwStrength (p : String) : Nat :=
  (if p.length ≥ 8 then 1 else 0) +
  (if p.toList.any (fun c => c.isUpper) then 1 else 0) +
  (if p.toList.any (fun c => c.isLower) then 1 else 0) +
  (if p.toList.any (fun c => c.isDigit) then 1 else 0) +
  (if p.toList.any (fun c => pwSpecialChars.contains c) then 1 else 0)

/-- The three password classifications shown by the demo. -/
inductive PwClass
  | weak
  | medium
  | strong
deriving Repr, DecidableEq

/-- The classification branch (`src/pages/10_forms_validation.py` lines
421-426): `strength <= 2` is Weak, `strength <= 3` Medium, otherwise
Strong. -/
def pwClassify (s : Nat) : PwClass :=
  if s ≤ 2 then PwClass.weak
  else if s ≤ 3 then PwClass.medium
  else PwClass.strong

/-- The whole strength handler: an empty password only shows
"Password is required"; otherwise the score and its classification are
displayed. -/
def checkStrength (p : String) : Option (Nat × PwClass) :=
  if p = "" then none else some (pwStrength p, pwClassify (pwStrength p))

/-- C1: for every submitted username and non-empty password, the Chapter 8
and Chapter 9 login handlers authenticate exactly when the username is a
key of `users_db` and the digest of the password equals the stored hash
(the hypothesis that the empty string is not a key covers Chapter 8's
up-front emptiness check); on success Chapter 8 sets
`authenticated = true` and `current_user` to the username, and Chapter 9
additionally sets `user_role` to the stored role. -/
theorem c1_login_auth_iff (hash : String → String) (st8 : AuthState8)
    (st9 : AuthState9) (u p : String) (hp : p ≠ "")
    (h0 : lookupKey st8.users_db "" = none) :
    ((login8 hash st8 u p).2 = "✅ Login successful!" ↔
      ∃ r, lookupKey st8.users_db u = some r ∧ hash p = r.password) ∧
    ((login9 hash st9 u p).2 = "✅ Login successful!" ↔
      ∃ r, lookupKey st9.users_db u = some r ∧ hash p = r.password) ∧
    (∀ r, lookupKey st8.users_db u = some r → hash p = r.password →
      (login8 hash st8 u p).1.authenticated = true ∧
      (login8 hash st8 u p).1.current_user = some u) ∧
    (∀ r, lookupKey st9.users_db u = some r → hash p = r.password →
      (login9 hash st9 u p).1.authenticated = true ∧
      (login9 hash st9 u p).1.current_user = some u ∧
      (login9 hash st9 u p).1.user_role = some r.role) := by
  refine ⟨?_, ?_, ?_, ?_⟩
  · unfold login8
    by_cases hu : u = ""
    · subst hu
      simp [h0]
    · simp only [hu, hp, or_self, if_false, false_or, if_neg]
      cases hl : lookupKey st8.users_db u with
      | none => simp [hl]
      | some r =>
        by_cases hh : hash p = r.password
        · simp [hl, hh]
        · simp [hl, hh]
  · unfold login9
    cases hl : lookupKey st9.users_db u with
    | none => simp [hl]
    | some r =>
      by_cases hh : hash p = r.password
      · simp [hl, hh]
      · simp [hl, hh]
  · intro r hl hh
    unfold login8
    by_cases hu : u = ""
    · subst hu
      rw [h0] at hl
      exact absurd hl (by simp)
    · simp [hu, hp, hl, hh]
  · intro r hl hh
    unfold login9
    simp [hl, hh]

/-- Witness for C1 at the seeded Chapter 8/9 databases with the identity
standing in for the digest function and the `admin` account. -/
theorem c1_login_auth_iff_witness :
    ("admin123" ≠ "" ∧
      lookupKey (initAuthState8 (fun s => s)).users_db "" = none) ∧
    ((login8 (fun s => s) (initAuthState8 (fun s => s)) "admin" "admin123").2
        = "✅ Login successful!" ↔
      ∃ r, lookupKey (initAuthState8 (fun s => s)).users_db "admin" = some r ∧
        (fun s => s) "admin123" = r.password) :=
  ⟨⟨by decide, by decide⟩,
   (c1_login_auth_iff (fun s => s) (initAuthState8 (fun s => s))
     (initAuthState9 (fun s => s)) "admin" "admin123"
     (by decide) (by decide)).1⟩

/-- C2: the Chapter 9 access checks are pure membership tests — the
permission test grants exactly when the permission is in
`ROLE_PERMISSIONS[role]` (which defaults to the empty list for an unknown
role), and the page test grants exactly when the user's role is in the
page's `PAGE_ACCESS` list; both tests depend on nothing else. -/
theorem c2_membership_tests (role perm page : String)
    (allowed_roles : List String)
    (_hpage : lookupKey PAGE_ACCESS page = some allowed_roles) :
    (permTestGranted role perm = true ↔ perm ∈ userPermissions role) ∧
    (lookupKey ROLE_PERMISSIONS role = none → userPermissions role = []) ∧
    (pageTestGranted allowed_roles role = true ↔ role ∈ allowed_roles) := by
  refine ⟨?_, ?_, ?_⟩
  · simp [permTestGranted]
  · intro h
    simp [userPermissions, h]
  · simp [pageTestGranted]

/-- Witness for C2 at the `manager` role, the `delete` permission and the
`analytics` page. -/
theorem c2_membership_tests_witness :
    lookupKey PAGE_ACCESS "analytics" = some ["admin", "manager"] ∧
    ((permTestGranted "manager" "delete" = true ↔
        "delete" ∈ userPermissions "manager") ∧
      (lookupKey ROLE_PERMISSIONS "manager" = none →
        userPermissions "manager" = []) ∧
      (pageTestGranted ["admin", "manager"] "manager" = true ↔
        "manager" ∈ ["admin", "manager"])) :=
  ⟨by decide,
   c2_membership_tests "manager" "delete" "analytics" ["admin", "manager"]
     (by decide)⟩

/-- C3 counterexample: submitting the Chapter 8 login form for the seeded
database with username `admin` and an empty password is a login attempt
that does not authenticate, yet the displayed message is the emptiness
message, not "User not found" and not "Invalid password". -/
theorem c3_failed_login_counterexample :
    (login8 (fun s => s) (initAuthState8 (fun s => s)) "admin" "").2
        = "❌ Please fill in all fields" ∧
    (login8 (fun s => s) (initAuthState8 (fun s => s)) "admin" "").2
        ≠ "✅ Login successful!" ∧
    (login8 (fun s => s) (initAuthState8 (fun s => s)) "admin" "").2
        ≠ "❌ User not found" ∧
    (login8 (fun s => s) (initAuthState8 (fun s => s)) "admin" "").2
        ≠ "❌ Invalid password" := by
  decide

/-- C3 amended: for every login attempt with non-empty username and
password that does not authenticate, the handler displays exactly one of
"User not found" (username absent from `users_db`) or "Invalid password"
(username present, hash mismatch), and the session state —
`authenticated`, `current_user`, `users_db` (and `user_role` in
Chapter 9) — is unchanged by the attempt. -/
theorem c3_failed_login_amended (hash : String → String) (st8 : AuthState8)
    (st9 : AuthState9) (u p : String) (hu : u ≠ "") (hp : p ≠ "") :
    ((login8 hash st8 u p).2 ≠ "✅ Login successful!" →
      ((login8 hash st8 u p).2 = "❌ User not found" ∨
        (login8 hash st8 u p).2 = "❌ Invalid password") ∧
      ((login8 hash st8 u p).2 = "❌ User not found" ↔
        lookupKey st8.users_db u = none) ∧
      (login8 hash st8 u p).1 = st8) ∧
    ((login9 hash st9 u p).2 ≠ "✅ Login successful!" →
      ((login9 hash st9 u p).2 = "❌ User not found" ∨
        (login9 hash st9 u p).2 = "❌ Invalid password") ∧
      ((login9 hash st9 u p).2 = "❌ User not found" ↔
        lookupKey st9.users_db u = none) ∧
      (login9 hash st9 u p).1 = st9) := by
  constructor
  · intro hfail
    unfold login8 at hfail ⊢
    simp only [hu, hp, or_self, if_false, false_or, if_neg] at hfail ⊢
    cases hl : lookupKey st8.users_db u with
    | none => simp [hl]
    | some r =>
      by_cases hh : hash p = r.password
      · simp [hl, hh] at hfail
      · simp [hl, hh]
  · intro hfail
    unfold login9 at hfail ⊢
    cases hl : lookupKey st9.users_db u with
    | none => simp [hl]
    | some r =>
      by_cases hh : hash p = r.password
      · simp [hl, hh] at hfail
      · simp [hl, hh]

/-- Witness for C3 amended at an unknown username against the seeded
databases. -/
theorem c3_failed_login_amended_witness :
    ("ghost" ≠ "" ∧ "nope" ≠ "") ∧
    ((login8 (fun s => s) (initAuthState8 (fun s => s)) "ghost" "nope").2
        ≠ "✅ Login successful!" →
      ((login8 (fun s => s) (initAuthState8 (fun s => s)) "ghost" "nope").2
          = "❌ User not found" ∨
        (login8 (fun s => s) (initAuthState8 (fun s => s)) "ghost" "nope").2
          = "❌ Invalid password") ∧
      ((login8 (fun s => s) (initAuthState8 (fun s => s)) "ghost" "nope").2
          = "❌ User not found" ↔
        lookupKey (initAuthState8 (fun s => s)).users_db "ghost" = none) ∧
      (login8 (fun s => s) (initAuthState8 (fun s => s)) "ghost" "nope").1
        = initAuthState8 (fun s => s)) :=
  ⟨⟨by decide, by decide⟩,
   (c3_failed_login_amended (fun s => s) (initAuthState8 (fun s => s))
     (initAuthState9 (fun s => s)) "ghost" "nope"
     (by decide) (by decide)).1⟩

/-- C4: for every create-user submission with non-empty name and email,
the Chapter 13 insert fails with the caught-`IntegrityError` message
"Email already exists!" exactly when a row with the same email is already
present, the table being unchanged on that failure; otherwise exactly one
new row with the given name, email and role is appended. -/
theorem c4_create_user (t : UsersTable) (now : Nat) (name email role : String)
    (hn : name ≠ "") (he : email ≠ "") :
    ((create_user t now name email role).2 = CreateMsg.emailExists ↔
      ∃ r ∈ t.rows, r.email = email) ∧
    ((∃ r ∈ t.rows, r.email = email) →
      create_user t now name email role = (t, CreateMsg.emailExists)) ∧
    ((¬ ∃ r ∈ t.rows, r.email = email) →
      (create_user t now name email role).2 = CreateMsg.created ∧
      (create_user t now name email role).1.rows
        = t.rows ++
          [{ id := t.nextId, name := name, email := email, role := role,
             created_at := now }]) := by
  have hcond : ¬ (name = "" ∨ email = "") := by simp [hn, he]
  have hany : (t.rows.any fun r => r.email = email) = true ↔
      ∃ r ∈ t.rows, r.email = email := by
    simp [List.any_eq_true]
  unfold create_user
  rw [if_neg hcond]
  by_cases hdup : (t.rows.any fun r => r.email = email) = true
  · rw [if_pos hdup]
    simp [← hany, hdup]
  · rw [if_neg hdup]
    simp [← hany, hdup]

/-- Witness for C4: inserting a first user into the empty table appends
exactly that row. -/
theorem c4_create_user_witness :
    ("Alice" ≠ "" ∧ "alice@example.com" ≠ "") ∧
    ((¬ ∃ r ∈ (⟨[], 1⟩ : UsersTable).rows, r.email = "alice@example.com") →
      (create_user ⟨[], 1⟩ 0 "Alice" "alice@example.com" "user").2
          = CreateMsg.created ∧
      (create_user ⟨[], 1⟩ 0 "Alice" "alice@example.com" "user").1.rows
        = (⟨[], 1⟩ : UsersTable).rows ++
          [{ id := (⟨[], 1⟩ : UsersTable).nextId, name := "Alice",
             email := "alice@example.com", role := "user",
             created_at := 0 }]) :=
  ⟨⟨by decide, by decide⟩,
   (c4_create_user ⟨[], 1⟩ 0 "Alice" "alice@example.com" "user"
     (by decide) (by decide)).2.2⟩

/-- C5: the Chapter 8 quiz score is the number of the five responses that
match the hardcoded key, hence always at most 5, and a fully correct
submission scores 5 and shows the perfect-score message. -/
theorem c5_quiz_score (a : Quiz8Answers) :
    quiz8Score a = (quiz8Matches a).count true ∧
    quiz8Score a ≤ 5 ∧
    (a.q1 = "To prevent storing plain text passwords" →
      a.q2 = "st.session_state" →
      a.q3 = "st.stop()" →
      a.q4 = true →
      a.q5 = "bcrypt" →
      quiz8Score a = 5 ∧
      quiz8Message (quiz8Score a)
        = "🎉 Excellent! You understand authentication!") := by
  unfold quiz8Score quiz8Matches quiz8Message
  by_cases h1 : a.q1 = "To prevent storing plain text passwords" <;>
  by_cases h2 : a.q2 = "st.session_state" <;>
  by_cases h3 : a.q3 = "st.stop()" <;>
  by_cases h4 : a.q4 = true <;>
  by_cases h5 : a.q5 = "bcrypt" <;>
    simp [h1, h2, h3, h4, h5, Bool.not_eq_true, List.count_cons]

/-- Witness for C5: the all-correct submission scores 5 out of 5. -/
theorem c5_quiz_score_witness :
    quiz8Score
        { q1 := "To prevent storing plain text passwords",
          q2 := "st.session_state", q3 := "st.stop()", q4 := true,
          q5 := "bcrypt" } = 5 ∧
    quiz8Message
        (quiz8Score
          { q1 := "To prevent storing plain text passwords",
            q2 := "st.session_state", q3 := "st.stop()", q4 := true,
            q5 := "bcrypt" })
      = "🎉 Excellent! You understand authentication!" :=
  (c5_quiz_score
      { q1 := "To prevent storing plain text passwords",
        q2 := "st.session_state", q3 := "st.stop()", q4 := true,
        q5 := "bcrypt" }).2.2
    rfl rfl rfl rfl rfl

/-- Inserting a fresh key into an association-list dictionary leaves the
lookup of every other key unchanged. -/
theorem lookupKey_cons_of_ne {V : Type} (k key : String) (v : V)
    (rest : List (String × V)) (h : key ≠ k) :
    lookupKey ((k, v) :: rest) key = lookupKey rest key := by
  simp [lookupKey, Ne.symm h]

/-- C6: the Chapter 8 registration handler creates an account exactly when
username, password and email are non-empty, the username is not yet a key
of `users_db`, the password has at least 6 characters and matches its
confirmation, and the email contains `@`; on success the new entry stores
the digest of the password and every other entry is unchanged; on failure
the database is unchanged and one error is reported per failed check. -/
theorem c6_registration (hash : String → String)
    (db : List (String × UserRec8)) (created : String)
    (username email password confirm role : String) :
    ((register8 hash db created username email password confirm role).2 = [] ↔
      (username ≠ "" ∧ password ≠ "" ∧ email ≠ "" ∧
        lookupKey db username = none ∧ 6 ≤ password.length ∧
        password = confirm ∧ containsChar email '@' = true)) ∧
    ((register8 hash db created username email password confirm role).2 = [] →
      (register8 hash db created username email password confirm role).1
          = (username,
             { password := hash password, email := email, role := role,
               created := created }) :: db ∧
      ∀ v, v ≠ username →
        lookupKey
            (register8 hash db created username email password confirm role).1 v
          = lookupKey db v) ∧
    ((register8 hash db created username email password confirm role).2 ≠ [] →
      (register8 hash db created username email password confirm role).1 = db) ∧
    (RegError.allFieldsRequired
        ∈ (register8 hash db created username email password confirm role).2 ↔
      (username = "" ∨ password = "" ∨ email = "")) ∧
    (RegError.usernameExists
        ∈ (register8 hash db created username email password confirm role).2 ↔
      (lookupKey db username).isSome = true) ∧
    (RegError.passwordTooShort
        ∈ (register8 hash db created username email password confirm role).2 ↔
      password.length < 6) ∧
    (RegError.passwordsMismatch
        ∈ (register8 hash db created username email password confirm role).2 ↔
      password ≠ confirm) ∧
    (RegError.invalidEmail
        ∈ (register8 hash db created username email password confirm role).2 ↔
      containsChar email '@' = false) := by
  have herr : (register8 hash db created username email password confirm role).2
      = register8Errors db username email password confirm := by
    unfold register8
    by_cases h : register8Errors db username email password confirm = [] <;>
      simp [h]
  have hfacts :
      (register8Errors db username email password confirm = [] ↔
        (username ≠ "" ∧ password ≠ "" ∧ email ≠ "" ∧
          lookupKey db username = none ∧ 6 ≤ password.length ∧
          password = confirm ∧ containsChar email '@' = true)) ∧
      (RegError.allFieldsRequired
          ∈ register8Errors db username email password confirm ↔
        (username = "" ∨ password = "" ∨ email = "")) ∧
      (RegError.usernameExists
          ∈ register8Errors db username email password confirm ↔
        (lookupKey db username).isSome = true) ∧
      (RegError.passwordTooShort
          ∈ register8Errors db username email password confirm ↔
        password.length < 6) ∧
      (RegError.passwordsMismatch
          ∈ register8Errors db username email password confirm ↔
        password ≠ confirm) ∧
      (RegError.invalidEmail
          ∈ register8Errors db username email password confirm ↔
        containsChar email '@' = false) := by
    unfold register8Errors
    by_cases hA : username = "" ∨ password = "" ∨ email = "" <;>
    by_cases hB : lookupKey db username = none <;>
    by_cases hC : password.length < 6 <;>
    by_cases hD : password = confirm <;>
    by_cases hE : containsChar email '@' = true <;>
      simp_all [not_or, Nat.not_lt, Option.ne_none_iff_isSome] <;>
      tauto
  have hsucc : register8Errors db username email password confirm = [] →
      (register8 hash db created username email password confirm role).1
        = (username,
           { password := hash password, email := email, role := role,
             created := created }) :: db := by
    intro h
    unfold register8
    simp [h]
  have hfail : register8Errors db username email password confirm ≠ [] →
      (register8 hash db created username email password confirm role).1
        = db := by
    intro h
    unfold register8
    simp [h]
  refine ⟨?_, ?_, ?_, ?_, ?_, ?_, ?_, ?_⟩
  · rw [herr]
    exact hfacts.1
  · intro h
    rw [herr] at h
    refine ⟨hsucc h, ?_⟩
    intro v hv
    rw [hsucc h]
    exact lookupKey_cons_of_ne username v _ db hv
  · intro h
    rw [herr] at h
    exact hfail h
  · rw [herr]
    exact hfacts.2.1
  · rw [herr]
    exact hfacts.2.2.1
  · rw [herr]
    exact hfacts.2.2.2.1
  · rw [herr]
    exact hfacts.2.2.2.2.1
  · rw [herr]
    exact hfacts.2.2.2.2.2

/-- Witness for C6: registering `bob` against an empty database succeeds
and stores exactly the new entry. -/
theorem c6_registration_witness :
    (register8 (fun s => s) [] "2024-02-01" "bob" "bob@example.com"
        "secret1" "secret1" "user").1
      = ("bob",
         { password := "secret1", email := "bob@example.com",
           role := "user", created := "2024-02-01" }) :: [] ∧
    ∀ v, v ≠ "bob" →
      lookupKey
          (register8 (fun s => s) [] "2024-02-01" "bob" "bob@example.com"
            "secret1" "secret1" "user").1 v
        = lookupKey ([] : List (String × UserRec8)) v :=
  (c6_registration (fun s => s) [] "2024-02-01" "bob" "bob@example.com"
      "secret1" "secret1" "user").2.1 (by decide)

/-- C7: the shared session store obeys last-write-wins — after writing
`v1` then `v2` to a key, reading that key yields `v2`, and a write leaves
every other key unchanged; the lesson pages' updates (the Chapter 4 cart
append and the Chapter 13 refresh-count increment) are such writes, so
reading their key back yields exactly the written value and no other key
moves. -/
theorem c7_last_write_wins {V : Type} (s : Store V) (k k2 : String)
    (v1 v2 : V) (hne : k2 ≠ k) :
    ((s.set k v1).set k v2).get k = some v2 ∧
    (s.set k v1).get k2 = s.get k2 ∧
    (∀ (c : Store (List CartItem)) (prod : String) (price : Nat),
      (add_to_cart c prod price).get "cart"
        = some ((c.get "cart").getD []
            ++ [{ product := prod, price := price }]) ∧
      ∀ k3, k3 ≠ "cart" → (add_to_cart c prod price).get k3 = c.get k3) ∧
    (∀ r : Store Nat,
      (refreshCountIncr r).get "refresh_count"
        = some ((r.get "refresh_count").getD 0 + 1) ∧
      ∀ k3, k3 ≠ "refresh_count" →
        (refreshCountIncr r).get k3 = r.get k3) := by
  refine ⟨?_, ?_, ?_, ?_⟩
  · simp [Store.set, Store.get, lookupKey]
  · simp [Store.set, Store.get, lookupKey, Ne.symm hne]
  · intro c prod price
    refine ⟨?_, ?_⟩
    · simp [add_to_cart, Store.set, Store.get, lookupKey]
    · intro k3 h3
      simp [add_to_cart, Store.set, Store.get, lookupKey, Ne.symm h3]
  · intro r
    refine ⟨?_, ?_⟩
    · simp [refreshCountIncr, Store.set, Store.get, lookupKey]
    · intro k3 h3
      simp [refreshCountIncr, Store.set, Store.get, lookupKey, Ne.symm h3]

/-- Witness for C7 on a `Nat`-valued store at the keys `counter` and
`flag`. -/
theorem c7_last_write_wins_witness :
    "flag" ≠ "counter" ∧
    ((((Store.set [] "counter" 1).set "counter" 2).get "counter" = some 2) ∧
      (Store.set ([] : Store Nat) "counter" 1).get "flag"
        = Store.get ([] : Store Nat) "flag") :=
  ⟨by decide,
   ⟨(c7_last_write_wins ([] : Store Nat) "counter" "flag" 1 2 (by decide)).1,
    (c7_last_write_wins ([] : Store Nat) "counter" "flag" 1 2 (by decide)).2.1⟩⟩

/-- Folding progress-demo button presses from any value inside `[0, 100]`
stays inside `[0, 100]`. -/
theorem progress_foldl_bounds (ops : List ProgressOp) (p : Int)
    (h0 : 0 ≤ p) (h100 : p ≤ 100) :
    0 ≤ ops.foldl progressStep p ∧ ops.foldl progressStep p ≤ 100 := by
  induction ops generalizing p with
  | nil => exact ⟨h0, h100⟩
  | cons op rest ih =>
    simp only [List.foldl_cons]
    apply ih
    · cases op <;> simp only [progressStep] <;> omega
    · cases op <;> simp only [progressStep] <;> omega

/-- C8: every progress-demo button press preserves `0 ≤ progress ≤ 100`,
and from the initial value 0 every sequence of presses leaves the progress
inside `[0, 100]`. -/
theorem c8_progress_invariant (p : Int) (op : ProgressOp)
    (h0 : 0 ≤ p) (h100 : p ≤ 100) :
    (0 ≤ progressStep p op ∧ progressStep p op ≤ 100) ∧
    ∀ ops : List ProgressOp, 0 ≤ runProgress ops ∧ runProgress ops ≤ 100 := by
  constructor
  · cases op <;> simp only [progressStep] <;> omega
  · intro ops
    exact progress_foldl_bounds ops 0 (by omega) (by omega)

/-- Witness for C8 at progress 95 and the "Add 10%" button. -/
theorem c8_progress_invariant_witness :
    ((0 : Int) ≤ 95 ∧ (95 : Int) ≤ 100) ∧
    ((0 ≤ progressStep 95 ProgressOp.add10 ∧
        progressStep 95 ProgressOp.add10 ≤ 100) ∧
      ∀ ops : List ProgressOp,
        0 ≤ runProgress ops ∧ runProgress ops ≤ 100) :=
  ⟨⟨by decide, by decide⟩,
   c8_progress_invariant 95 ProgressOp.add10 (by decide) (by decide)⟩

/-- A single wizard interaction keeps `form_step` inside `{1, 2, 3, 4}`. -/
theorem wizardStep_step_bounds (st : WizardState) (e : WizardEvent)
    (h1 : 1 ≤ st.form_step) (h4 : st.form_step ≤ 4) :
    1 ≤ (wizardStep st e).form_step ∧ (wizardStep st e).form_step ≤ 4 := by
  cases e <;> simp only [wizardStep] <;> split_ifs <;> (try simp) <;> omega

/-- Folding wizard interactions from any state whose step is inside
`{1, 2, 3, 4}` stays inside `{1, 2, 3, 4}`. -/
theorem wizard_foldl_bounds (es : List WizardEvent) (st : WizardState)
    (h1 : 1 ≤ st.form_step) (h4 : st.form_step ≤ 4) :
    1 ≤ (es.foldl wizardStep st).form_step ∧
      (es.foldl wizardStep st).form_step ≤ 4 := by
  induction es generalizing st with
  | nil => exact ⟨h1, h4⟩
  | cons e rest ih =>
    simp only [List.foldl_cons]
    have hb := wizardStep_step_bounds st e h1 h4
    exact ih _ hb.1 hb.2

/-- C9: the Chapter 10 wizard starts at `form_step = 1` and the step is
always one of `{1, 2, 3, 4}`; each Next submission advances the step by
exactly 1 precisely when its validation passes (merging its fields into
`form_data`, and leaving the state untouched otherwise), each Back moves
the step down by exactly 1, and the final submission appends one record to
`submitted_forms`, resets `form_step` to 1 and empties `form_data`. -/
theorem c9_wizard_state_machine (st : WizardState) (es : List WizardEvent)
    (fn ln em ph bd street city stA zipc country u p c sq sa now : String) :
    initWizard.form_step = 1 ∧
    (1 ≤ (runWizard es).form_step ∧ (runWizard es).form_step ≤ 4) ∧
    (st.form_step = 1 →
      ((wizardStep st (WizardEvent.next1 fn ln em ph bd)).form_step = 2 ↔
        step1Errors fn ln em ph = []) ∧
      (step1Errors fn ln em ph = [] →
        wizardStep st (WizardEvent.next1 fn ln em ph bd)
          = { st with form_step := 2,
                      form_data := updateData st.form_data
                        [("first_name", fn), ("last_name", ln), ("email", em),
                         ("phone", ph), ("birthdate", bd)] }) ∧
      (step1Errors fn ln em ph ≠ [] →
        wizardStep st (WizardEvent.next1 fn ln em ph bd) = st)) ∧
    (st.form_step = 2 →
      ((wizardStep st
          (WizardEvent.next2 street city stA zipc country)).form_step = 3 ↔
        step2Errors street city stA zipc = []) ∧
      (step2Errors street city stA zipc = [] →
        wizardStep st (WizardEvent.next2 street city stA zipc country)
          = { st with form_step := 3,
                      form_data := updateData st.form_data
                        [("street", street), ("city", city), ("state", stA),
                         ("zipcode", zipc), ("country", country)] }) ∧
      (step2Errors street city stA zipc ≠ [] →
        wizardStep st (WizardEvent.next2 street city stA zipc country) = st)) ∧
    (st.form_step = 3 →
      ((wizardStep st (WizardEvent.next3 u p c sq sa)).form_step = 4 ↔
        step3Errors u p c sa = []) ∧
      (step3Errors u p c sa = [] →
        wizardStep st (WizardEvent.next3 u p c sq sa)
          = { st with form_step := 4,
                      form_data := updateData st.form_data
                        [("username", u), ("password", "***hidden***"),
                         ("security_question", sq),
                         ("security_answer", sa)] }) ∧
      (step3Errors u p c sa ≠ [] →
        wizardStep st (WizardEvent.next3 u p c sq sa) = st)) ∧
    (st.form_step = 2 →
      wizardStep st WizardEvent.back2 = { st with form_step := 1 }) ∧
    (st.form_step = 3 →
      wizardStep st WizardEvent.back3 = { st with form_step := 2 }) ∧
    (st.form_step = 4 →
      wizardStep st WizardEvent.back4 = { st with form_step := 3 }) ∧
    (st.form_step = 4 →
      (wizardStep st (WizardEvent.submit4 now)).submitted_forms
        = st.submitted_forms ++
          [{ type := "multi-step-application", data := st.form_data,
             timestamp := now }] ∧
      (wizardStep st (WizardEvent.submit4 now)).form_step = 1 ∧
      (wizardStep st (WizardEvent.submit4 now)).form_data = []) := by
  refine ⟨rfl, ?_, ?_, ?_, ?_, ?_, ?_, ?_, ?_⟩
  · exact wizard_foldl_bounds es initWizard (by decide) (by decide)
  · intro h
    refine ⟨?_, ?_, ?_⟩
    · by_cases herr : step1Errors fn ln em ph = [] <;>
        simp [wizardStep, h, herr]
    · intro herr
      simp [wizardStep, h, herr]
    · intro herr
      simp [wizardStep, h, herr]
  · intro h
    refine ⟨?_, ?_, ?_⟩
    · by_cases herr : step2Errors street city stA zipc = [] <;>
        simp [wizardStep, h, herr]
    · intro herr
      simp [wizardStep, h, herr]
    · intro herr
      simp [wizardStep, h, herr]
  · intro h
    refine ⟨?_, ?_, ?_⟩
    · by_cases herr : step3Errors u p c sa = [] <;>
        simp [wizardStep, h, herr]
    · intro herr
      simp [wizardStep, h, herr]
    · intro herr
      simp [wizardStep, h, herr]
  · intro h
    simp [wizardStep, h]
  · intro h
    simp [wizardStep, h]
  · intro h
    simp [wizardStep, h]
  · intro h
    simp [wizardStep, h]

/-- Witness for C9: from the initial state, a valid step-1 submission
moves the wizard to step 2. -/
theorem c9_wizard_state_machine_witness :
    initWizard.form_step = 1 ∧
    ((wizardStep initWizard
        (WizardEvent.next1 "Ada" "Lovelace" "ada@example.com" "555-0100"
          "2000-01-01")).form_step = 2 ↔
      step1Errors "Ada" "Lovelace" "ada@example.com" "555-0100" = []) :=
  ⟨by decide,
   ((c9_wizard_state_machine initWizard [] "Ada" "Lovelace"
       "ada@example.com" "555-0100" "2000-01-01" "1 Main St" "London" "LDN"
       "12345" "UK" "ada" "longpass8" "longpass8" "Q" "A"
       "2024-02-01").2.2.1 (by decide)).1⟩

/-- C10: for every non-empty password the strength handler shows the
score and classification; the score is the number of the five criteria
satisfied, so it is at most 5, and the classification is Weak exactly for
scores at most 2, Medium exactly for score 3, and Strong exactly for
scores at least 4. -/
theorem c10_password_strength (p : String) (hp : p ≠ "") :
    checkStrength p = some (pwStrength p, pwClassify (pwStrength p)) ∧
    pwStrength p = (pwCriteria p).count true ∧
    pwStrength p ≤ 5 ∧
    (pwClassify (pwStrength p) = PwClass.weak ↔ pwStrength p ≤ 2) ∧
    (pwClassify (pwStrength p) = PwClass.medium ↔ pwStrength p = 3) ∧
    (pwClassify (pwStrength p) = PwClass.strong ↔ 4 ≤ pwStrength p) := by
  have hclass : ∀ s : Nat,
      (pwClassify s = PwClass.weak ↔ s ≤ 2) ∧
      (pwClassify s = PwClass.medium ↔ s = 3) ∧
      (pwClassify s = PwClass.strong ↔ 4 ≤ s) := by
    intro s
    unfold pwClassify
    by_cases h2 : s ≤ 2 <;> by_cases h3 : s ≤ 3 <;>
      simp [h2, h3] <;> omega
  have hcount : pwStrength p = (pwCriteria p).count true := by
    unfold pwStrength pwCriteria
    by_cases h1 : 8 ≤ p.length <;>
    by_cases h2 : p.toList.any (fun c => c.isUpper) = true <;>
    by_cases h3 : p.toList.any (fun c => c.isLower) = true <;>
    by_cases h4 : p.toList.any (fun c => c.isDigit) = true <;>
    by_cases h5 : p.toList.any (fun c => pwSpecialChars.contains c) = true <;>
      simp [h1, h2, h3, h4, h5, Bool.not_eq_true, List.count_cons] <;> ring
  have hle : pwStrength p ≤ 5 := by
    unfold pwStrength
    split_ifs <;> omega
  exact ⟨by simp [checkStrength, hp], hcount, hle,
    (hclass (pwStrength p)).1, (hclass (pwStrength p)).2.1,
    (hclass (pwStrength p)).2.2⟩

/-- Witness for C10 at a password meeting all five criteria. -/
theorem c10_password_strength_witness :
    "Ab1!xyzw" ≠ "" ∧
    checkStrength "Ab1!xyzw"
      = some (pwStrength "Ab1!xyzw", pwClassify (pwStrength "Ab1!xyzw")) ∧
    pwStrength "Ab1!xyzw" = (pwCriteria "Ab1!xyzw").count true :=
  ⟨by decide,
   (c10_password_strength "Ab1!xyzw" (by decide)).1,
   (c10_password_strength "Ab1!xyzw" (by decide)).2.1⟩
